import Mathlib

/-!
Verification of the order-to-inventory consistency workflow of the
`buildathon` repository.

The source file `db_utils.py` implements the Order Recorder
(`insert_orders_from_bot`) together with its diagnostic pre/post
inventory checks.  The Depletion Engine
(`inventory_depletion.deplete_inventory_from_order`) is imported by
`db_utils.py` but its module is not part of the repository snapshot, so
it is modelled from the specification (section 4.4); the Order Recorder
below is parametric in the engine so that recorder-only properties are
proved for every possible engine result.

Quantities (order quantities, per-unit recipe requirements, aggregated
demand) are natural numbers; ingredient stock is an integer so that
non-negativity of stock is a meaningful invariant.  Python `None`
returns are modelled as `Option.none`; Python truthiness of the
depletion result is modelled explicitly by the `PyVal` type.
-/

/-- One requested item of an order batch: `item.item_name` and
`item.quantity` in `db_utils.py`. -/
structure OrderItem where
  itemName : String
  quantity : Nat
deriving Repr, DecidableEq

/-- One row of the `Meals` table as used by the recorder:
`SELECT name, meal_id FROM Meals`. -/
structure Meal where
  name : String
  mealId : Nat
deriving Repr, DecidableEq

/-- One row of the `Recipe_Ingredients` table: meal, ingredient and the
per-unit required quantity. -/
structure RecipeLine where
  mealId : Nat
  ingredientId : Nat
  qtyPerUnit : Nat
deriving Repr, DecidableEq

/-- One row of the `Ingredients` table: id, display name, unit of
measure and the mutable `current_inventory` stock. -/
structure Ingredient where
  ingredientId : Nat
  ingName : String
  unit : String
  stock : Int
deriving Repr, DecidableEq

/-- One row of the `Order_Items` table, as inserted by
`cursor.executemany(insert_query, orders_to_insert)`. -/
structure OrderLine where
  orderId : String
  mealId : Nat
  quantity : Nat
deriving Repr, DecidableEq

/-- The relational store threaded through the workflow. -/
structure DB where
  meals : List Meal
  recipes : List RecipeLine
  ingredients : List Ingredient
  orderItems : List OrderLine
deriving Repr, DecidableEq

/-- The externally supplied connection state: whether `conn is None`
and whether the initial `SELECT name, meal_id FROM Meals` raises a
`mysql.connector.Error`. -/
structure ConnState where
  isNone : Bool
  mealsQueryFails : Bool
deriving Repr, DecidableEq

/-- A Python value as far as the recorder's gate can observe it: the
gate tests truthiness (`if not deplete_status`) and string equality
(`deplete_status == "not_enough"`). -/
inductive PyVal where
  | pynone
  | pybool (b : Bool)
  | pystr (s : String)
  | pyint (n : Int)
deriving Repr, DecidableEq

/-- Python truthiness: `None`, `False`, `""` and `0` are falsy. -/
def PyVal.truthy : PyVal → Bool
  | .pynone => false
  | .pybool b => b
  | .pystr s => s != ""
  | .pyint n => n != 0

/-- Python's `str.lower()`, mapped over the characters (the names in
this catalog are ASCII, where the two agree). -/
def pyLower (s : String) : String :=
  String.mk (s.data.map Char.toLower)

/-- The meal-name lookup
`meal_name_to_id = {name.lower(): meal_id for name, meal_id in cursor.fetchall()}`
followed by `meal_name_to_id.get(item_name.lower())`.  A Python dict
comprehension keeps the last binding of a repeated key, hence the
search over the reversed row list. -/
def lookupMeal (db : DB) (name : String) : Option Nat :=
  (db.meals.reverse.find? (fun m => pyLower m.name == pyLower name)).map (fun m => m.mealId)

/-- The `orders_to_insert` accumulation (without the shared order id):
each item whose lowercased name is found in the catalog contributes a
`(meal_id, quantity)` pair, in order; unmatched items are dropped. -/
def resolveOrder (db : DB) (order : List OrderItem) : List (Nat × Nat) :=
  order.filterMap (fun it => (lookupMeal db it.itemName).map (fun m => (m, it.quantity)))

/-- The names reported by
`print(f"Warning: Meal '{item_name}' not found in database. ...")`,
one warning per unmatched item, in order. -/
def skippedNames (db : DB) (order : List OrderItem) : List String :=
  (order.filter (fun it => (lookupMeal db it.itemName).isNone)).map (fun it => it.itemName)

/-- The function `get_ingredient_current_inventory`: the ledger read
`SELECT ingredient_name, current_inventory, unit FROM Ingredients WHERE ingredient_id = %s`,
returning `none` when the id is absent. -/
def get_ingredient_current_inventory (db : DB) (i : Nat) : Option Ingredient :=
  db.ingredients.find? (fun ing => ing.ingredientId == i)

/-- The ingredient ids returned by the recipe query
`SELECT ri.ingredient_id, ... FROM Recipe_Ingredients ri JOIN ... WHERE ri.meal_id = %s`. -/
def recipeIngredientIds (db : DB) (m : Nat) : List Nat :=
  (db.recipes.filter (fun r => r.mealId == m)).map (fun r => r.ingredientId)

/-- Whether the pre-depletion loop issues a recipe query for this item:
line 67 of `db_utils.py` tests `if meal_id_for_item:` (Python
truthiness), so a resolved meal id of `0` is skipped there. -/
def truthyMeal (db : DB) (it : OrderItem) : Bool :=
  match lookupMeal db it.itemName with
  | some m => m != 0
  | none => false

/-- Insertion into the `ingredients_to_check` dict: a repeated key keeps
its first insertion position, a new key is appended. -/
def insertUniq (l : List Nat) (x : Nat) : List Nat :=
  if x ∈ l then l else l ++ [x]

/-- One iteration of the pre-depletion gathering loop (lines 65-76 of
`db_utils.py`): resolve the item, and when the meal id is truthy run
one recipe query, folding its rows into `ingredients_to_check` and
counting the query. -/
def gatherStep (db : DB) (acc : List Nat × Nat) (it : OrderItem) : List Nat × Nat :=
  match lookupMeal db it.itemName with
  | some m => if m != 0 then ((recipeIngredientIds db m).foldl insertUniq acc.1, acc.2 + 1) else acc
  | none => acc

/-- The whole pre-depletion gathering loop: the deduplicated list of
ingredient ids to check, and the number of recipe queries executed. -/
def gatherIngredients (db : DB) (order : List OrderItem) : List Nat × Nat :=
  order.foldl (gatherStep db) ([], 0)

/-- Per-unit requirement of ingredient `i` for one unit of meal `m`:
the summed `qtyPerUnit` of the matching recipe rows. -/
def recipeQty (db : DB) (m i : Nat) : Nat :=
  ((db.recipes.filter (fun r => r.mealId == m && r.ingredientId == i)).map (fun r => r.qtyPerUnit)).sum

/-- Modelled from the spec: the aggregated demand of section 4.4 step 1
of the specification, computed by the missing module
`inventory_depletion`.  For every resolved order line the meal's recipe
is expanded, each per-unit requirement is multiplied by the line's
quantity, and the results are accumulated into a single per-ingredient
total across the entire batch. -/
def demand (db : DB) (order : List OrderItem) (i : Nat) : Nat :=
  ((resolveOrder db order).map (fun p => p.2 * recipeQty db p.1 i)).sum

/-- Modelled from the spec: the sufficiency check of section 4.4 step 2,
reading every ledger ingredient's current stock and requiring the
aggregated demand not to exceed it. -/
def sufficientStock (db : DB) (order : List OrderItem) : Bool :=
  db.ingredients.all (fun ing => decide ((demand db order ing.ingredientId : Int) ≤ ing.stock))

/-- Modelled from the spec: the decrement phase of section 4.4 step 3,
each ingredient's stock reduced by its aggregated demand (a zero demand
leaves the entry unchanged). -/
def decrementAll (f : Nat → Nat) (l : List Ingredient) : List Ingredient :=
  l.map (fun ing => { ing with stock := ing.stock - (f ing.ingredientId : Int) })

/-- Modelled from the spec: the function `deplete_inventory_from_order`
of the missing module `inventory_depletion` (specification section 4.4).
It aggregates demand over the whole batch, checks every ingredient's
stock, and either decrements all of them and reports success, or
decrements none of them and reports the insufficient-stock outcome
(the string observed by the recorder is `"not_enough"`). -/
def deplete_inventory_from_order (db : DB) (order : List OrderItem) : PyVal × DB :=
  if sufficientStock db order then
    (.pystr "ok", { db with ingredients := decrementAll (demand db order) db.ingredients })
  else
    (.pystr "not_enough", db)

/-- The observable ledger states while the modelled engine runs: when
sufficiency holds the decrements are applied one ingredient at a time,
so after `k` steps the first `k` entries are decremented and the rest
untouched; when sufficiency fails no decrement is ever applied. -/
def observableStock (db : DB) (order : List OrderItem) (k : Nat) : List Ingredient :=
  if sufficientStock db order then
    decrementAll (demand db order) (db.ingredients.take k) ++ db.ingredients.drop k
  else
    db.ingredients

/-- Appending the accepted order lines: `cursor.executemany` over
`orders_to_insert`, every line sharing the batch's generated order id. -/
def persistLines (db : DB) (orderId : String) (resolved : List (Nat × Nat)) : DB :=
  { db with orderItems := db.orderItems ++ resolved.map (fun p => OrderLine.mk orderId p.1 p.2) }

/-- Everything observable about one run of `insert_orders_from_bot`:
the Python return value (`none` models Python `None`), the final store,
the warned-about skipped names, the number of recipe queries of the
pre-depletion loop, the number of diagnostic ledger reads, whether the
depletion engine was invoked, the number of order lines passed to
`executemany`, and the number of `conn.commit()` calls. -/
structure WorkflowResult where
  retval : Option String
  db : DB
  skipped : List String
  recipeQueries : Nat
  ledgerReads : Nat
  depleteCalls : Nat
  persisted : Nat
  commits : Nat
deriving Repr, DecidableEq

/-- The function `insert_orders_from_bot` of `db_utils.py`, parametric in the
depletion engine (the Python module imports it; the snapshot does not
contain it).  The unused third Python parameter `ignorevar` is omitted.
Control flow, faithful to the source: a missing connection or a failing
catalog query returns Python `None`; resolution builds
`orders_to_insert` and warns per unmatched item; an empty resolved list
skips everything and falls through to `return "ok"`; otherwise the
pre-depletion loop runs one recipe query per truthy-resolving line and
one diagnostic ledger read per gathered ingredient, the engine is
called, a falsy result returns `"notok-err"`, the exact string
`"not_enough"` is propagated, and any other (truthy) result leads to
the post-depletion reads, `executemany`, one `conn.commit()` and
`return "ok"`. -/
def insert_orders_from_bot (depleteFn : DB → List OrderItem → PyVal × DB)
    (cs : ConnState) (orderId : String) (db : DB) (order : List OrderItem) : WorkflowResult :=
  if cs.isNone then ⟨none, db, [], 0, 0, 0, 0, 0⟩
  else if cs.mealsQueryFails then ⟨none, db, [], 0, 0, 0, 0, 0⟩
  else
    let resolved := resolveOrder db order
    let skipped := skippedNames db order
    if resolved.isEmpty then ⟨some "ok", db, skipped, 0, 0, 0, 0, 0⟩
    else
      let g := gatherIngredients db order
      let found := g.1.filter (fun i => (get_ingredient_current_inventory db i).isSome)
      let res := depleteFn db order
      if !res.1.truthy then ⟨some "notok-err", res.2, skipped, g.2, g.1.length, 1, 0, 0⟩
      else if res.1 == .pystr "not_enough" then
        ⟨some "not_enough", res.2, skipped, g.2, g.1.length, 1, 0, 0⟩
      else
        ⟨some "ok", persistLines res.2 orderId resolved, skipped, g.2,
          g.1.length + found.length, 1, resolved.length, 1⟩

/-- The full workflow: the recorder of `db_utils.py` composed with the
spec-modelled depletion engine. -/
def runWorkflow (cs : ConnState) (orderId : String) (db : DB) (order : List OrderItem) :
    WorkflowResult :=
  insert_orders_from_bot deplete_inventory_from_order cs orderId db order

/-- The tri-state outcome taxonomy of the specification. -/
inductive Outcome where
  | ok
  | insufficientStock
  | hardError
deriving Repr, DecidableEq

/-- How the recorder's gate classifies an engine result: falsy values
are hard errors, the exact string `"not_enough"` is insufficient stock,
every other truthy value is success. -/
def classifyEngine (v : PyVal) : Outcome :=
  if !v.truthy then .hardError
  else if v == .pystr "not_enough" then .insufficientStock
  else .ok

/-- How a recorder return value maps back onto the outcome taxonomy. -/
def classifyRet : Option String → Option Outcome
  | some "ok" => some .ok
  | some "not_enough" => some .insufficientStock
  | some "notok-err" => some .hardError
  | _ => none

/-- A concrete store realising the specification's running example:
meal Pizza (id 1) needs 2 units of Cheese (id 101, stock 10) per unit. -/
def sampleDB : DB :=
  { meals := [⟨"Pizza", 1⟩]
    recipes := [⟨1, 101, 2⟩]
    ingredients := [⟨101, "Cheese", "g", 10⟩]
    orderItems := [] }

/-- A connection state with a live connection and a working catalog query. -/
def goodConn : ConnState := ⟨false, false⟩

/-! ### Branch characterizations of the recorder -/

theorem run_no_conn (f : DB → List OrderItem → PyVal × DB) (cs : ConnState) (oid : String)
    (db : DB) (order : List OrderItem) (h1 : cs.isNone = true) :
    insert_orders_from_bot f cs oid db order = ⟨none, db, [], 0, 0, 0, 0, 0⟩ := by
  simp [insert_orders_from_bot, h1]

theorem run_meals_fail (f : DB → List OrderItem → PyVal × DB) (cs : ConnState) (oid : String)
    (db : DB) (order : List OrderItem) (h1 : cs.isNone = false) (h2 : cs.mealsQueryFails = true) :
    insert_orders_from_bot f cs oid db order = ⟨none, db, [], 0, 0, 0, 0, 0⟩ := by
  simp [insert_orders_from_bot, h1, h2]

theorem run_empty (f : DB → List OrderItem → PyVal × DB) (cs : ConnState) (oid : String)
    (db : DB) (order : List OrderItem) (h1 : cs.isNone = false) (h2 : cs.mealsQueryFails = false)
    (he : (resolveOrder db order).isEmpty = true) :
    insert_orders_from_bot f cs oid db order
      = ⟨some "ok", db, skippedNames db order, 0, 0, 0, 0, 0⟩ := by
  simp [insert_orders_from_bot, h1, h2, he]

theorem run_falsy (f : DB → List OrderItem → PyVal × DB) (cs : ConnState) (oid : String)
    (db : DB) (order : List OrderItem) (h1 : cs.isNone = false) (h2 : cs.mealsQueryFails = false)
    (he : (resolveOrder db order).isEmpty = false) (hf : (f db order).1.truthy = false) :
    insert_orders_from_bot f cs oid db order
      = ⟨some "notok-err", (f db order).2, skippedNames db order,
          (gatherIngredients db order).2, (gatherIngredients db order).1.length, 1, 0, 0⟩ := by
  simp [insert_orders_from_bot, h1, h2, he, hf]

theorem run_not_enough (f : DB → List OrderItem → PyVal × DB) (cs : ConnState) (oid : String)
    (db : DB) (order : List OrderItem) (h1 : cs.isNone = false) (h2 : cs.mealsQueryFails = false)
    (he : (resolveOrder db order).isEmpty = false) (heq : (f db order).1 = .pystr "not_enough") :
    insert_orders_from_bot f cs oid db order
      = ⟨some "not_enough", (f db order).2, skippedNames db order,
          (gatherIngredients db order).2, (gatherIngredients db order).1.length, 1, 0, 0⟩ := by
  simp [insert_orders_from_bot, h1, h2, he, heq, PyVal.truthy]

theorem run_success (f : DB → List OrderItem → PyVal × DB) (cs : ConnState) (oid : String)
    (db : DB) (order : List OrderItem) (h1 : cs.isNone = false) (h2 : cs.mealsQueryFails = false)
    (he : (resolveOrder db order).isEmpty = false) (ht : (f db order).1.truthy = true)
    (hne : (f db order).1 ≠ .pystr "not_enough") :
    insert_orders_from_bot f cs oid db order
      = ⟨some "ok", persistLines (f db order).2 oid (resolveOrder db order),
          skippedNames db order, (gatherIngredients db order).2,
          (gatherIngredients db order).1.length
            + ((gatherIngredients db order).1.filter
                (fun i => (get_ingredient_current_inventory db i).isSome)).length,
          1, (resolveOrder db order).length, 1⟩ := by
  simp [insert_orders_from_bot, h1, h2, he, ht, hne]

/-! ### Resolution, demand and sufficiency lemmas -/

theorem lookupMeal_isSome_iff (db : DB) (name : String) :
    (lookupMeal db name).isSome = true ↔ ∃ m ∈ db.meals, pyLower m.name = pyLower name := by
  unfold lookupMeal
  rw [Option.isSome_map']
  rw [List.find?_isSome]
  constructor
  · rintro ⟨m, hm, hp⟩
    exact ⟨m, List.mem_reverse.mp hm, by simpa using hp⟩
  · rintro ⟨m, hm, hp⟩
    exact ⟨m, List.mem_reverse.mpr hm, by simpa using hp⟩

theorem lookupMeal_eq_some (db : DB) (name : String) (mid : Nat)
    (h : lookupMeal db name = some mid) :
    ∃ m ∈ db.meals, m.mealId = mid ∧ pyLower m.name = pyLower name := by
  unfold lookupMeal at h
  rw [Option.map_eq_some'] at h
  obtain ⟨m, hfind, hmid⟩ := h
  refine ⟨m, List.mem_reverse.mp (List.mem_of_find?_eq_some hfind), hmid, ?_⟩
  have := List.find?_some hfind
  simpa using this

theorem lookupMeal_eq_none (db : DB) (name : String)
    (h : ∀ m ∈ db.meals, pyLower m.name ≠ pyLower name) :
    lookupMeal db name = none := by
  unfold lookupMeal
  rw [Option.map_eq_none']
  rw [List.find?_eq_none]
  intro m hm
  simpa using h m (List.mem_reverse.mp hm)

theorem mem_resolveOrder_of_lookup (db : DB) (order : List OrderItem) (it : OrderItem)
    (hit : it ∈ order) (mid : Nat) (h : lookupMeal db it.itemName = some mid) :
    (mid, it.quantity) ∈ resolveOrder db order := by
  unfold resolveOrder
  rw [List.mem_filterMap]
  exact ⟨it, hit, by rw [h]; rfl⟩

theorem mem_skippedNames_of_lookup_none (db : DB) (order : List OrderItem) (it : OrderItem)
    (hit : it ∈ order) (h : lookupMeal db it.itemName = none) :
    it.itemName ∈ skippedNames db order := by
  unfold skippedNames
  rw [List.mem_map]
  exact ⟨it, List.mem_filter.mpr ⟨hit, by simp [h]⟩, rfl⟩

theorem lookup_none_of_mem_skippedNames (db : DB) (order : List OrderItem) (name : String)
    (h : name ∈ skippedNames db order) :
    lookupMeal db name = none := by
  unfold skippedNames at h
  rw [List.mem_map] at h
  obtain ⟨it, hmem, hname⟩ := h
  have := (List.mem_filter.mp hmem).2
  rw [← hname]
  simpa [Option.isNone_iff_eq_none] using this

theorem demand_of_resolve_nil (db : DB) (order : List OrderItem)
    (h : resolveOrder db order = []) (i : Nat) : demand db order i = 0 := by
  simp [demand, h]

theorem sufficientStock_iff (db : DB) (order : List OrderItem) :
    sufficientStock db order = true ↔
      ∀ ing ∈ db.ingredients, (demand db order ing.ingredientId : Int) ≤ ing.stock := by
  unfold sufficientStock
  rw [List.all_eq_true]
  constructor
  · intro h ing hing
    exact of_decide_eq_true (h ing hing)
  · intro h ing hing
    exact decide_eq_true (h ing hing)

theorem resolveOrder_ne_nil_of_demand_pos (db : DB) (order : List OrderItem)
    (hnn : ∀ ing ∈ db.ingredients, 0 ≤ ing.stock)
    (hins : ∃ ing ∈ db.ingredients, ing.stock < (demand db order ing.ingredientId : Int)) :
    (resolveOrder db order).isEmpty = false := by
  obtain ⟨ing, hing, hlt⟩ := hins
  rcases hres : (resolveOrder db order).isEmpty with _ | _
  · rfl
  · exfalso
    rw [List.isEmpty_iff] at hres
    have hz := demand_of_resolve_nil db order hres ing.ingredientId
    rw [hz] at hlt
    exact absurd (hnn ing hing) (by simpa using hlt.not_le)

/-! ### Engine, decrement and gathering lemmas -/

theorem deplete_sufficient (db : DB) (order : List OrderItem)
    (hs : sufficientStock db order = true) :
    deplete_inventory_from_order db order
      = (.pystr "ok", { db with ingredients := decrementAll (demand db order) db.ingredients }) := by
  simp [deplete_inventory_from_order, hs]

theorem deplete_insufficient (db : DB) (order : List OrderItem)
    (hs : sufficientStock db order = false) :
    deplete_inventory_from_order db order = (.pystr "not_enough", db) := by
  simp [deplete_inventory_from_order, hs]

theorem decrementAll_zero (l : List Ingredient) :
    decrementAll (fun _ => 0) l = l := by
  unfold decrementAll
  induction l with
  | nil => rfl
  | cons a t ih =>
    simp only [List.map_cons, ih]
    congr 1
    cases a
    simp

theorem decrementAll_nonneg (db : DB) (order : List OrderItem) (l : List Ingredient)
    (hl : ∀ ing ∈ l, ing ∈ db.ingredients) (hnn : ∀ ing ∈ l, 0 ≤ ing.stock)
    (hs : sufficientStock db order = true) :
    ∀ ing ∈ decrementAll (demand db order) l, 0 ≤ ing.stock := by
  intro ing hing
  unfold decrementAll at hing
  rw [List.mem_map] at hing
  obtain ⟨y, hy, rfl⟩ := hing
  have hle := (sufficientStock_iff db order).mp hs y (hl y hy)
  have := hnn y hy
  simp only []
  omega

theorem gatherStep_snd (db : DB) (acc : List Nat × Nat) (it : OrderItem) :
    (gatherStep db acc it).2 = acc.2 + (if truthyMeal db it then 1 else 0) := by
  unfold gatherStep truthyMeal
  rcases h : lookupMeal db it.itemName with _ | m
  · simp
  · rcases hm : (m != 0) with _ | _ <;> simp [hm]

theorem gather_count_general (db : DB) (order : List OrderItem) :
    ∀ acc : List Nat × Nat,
      (order.foldl (gatherStep db) acc).2 = acc.2 + (order.filter (truthyMeal db)).length := by
  induction order with
  | nil => intro acc; simp
  | cons it rest ih =>
    intro acc
    rw [List.foldl_cons, ih]
    rw [gatherStep_snd]
    rcases h : truthyMeal db it with _ | _
    · simp [h, List.filter_cons]
    · simp [h, List.filter_cons]
      omega

theorem gather_count (db : DB) (order : List OrderItem) :
    (gatherIngredients db order).2 = (order.filter (truthyMeal db)).length := by
  unfold gatherIngredients
  rw [gather_count_general]
  simp

theorem map_sub_demand_nil (db : DB) (order : List OrderItem)
    (h : resolveOrder db order = []) :
    db.ingredients.map
        (fun ing => { ing with stock := ing.stock - (demand db order ing.ingredientId : Int) })
      = db.ingredients := by
  have hp : ∀ ing ∈ db.ingredients,
      ({ ing with stock := ing.stock - (demand db order ing.ingredientId : Int) } : Ingredient)
        = ing := by
    intro ing _
    rw [demand_of_resolve_nil db order h]
    cases ing
    simp
  rw [List.map_congr_left hp]
  simp

theorem runWorkflow_ok_of_sufficient (cs : ConnState) (oid : String) (db : DB)
    (order : List OrderItem) (hconn : cs.isNone = false) (hq : cs.mealsQueryFails = false)
    (hs : sufficientStock db order = true) :
    (runWorkflow cs oid db order).retval = some "ok" ∧
    (runWorkflow cs oid db order).persisted = (resolveOrder db order).length ∧
    (runWorkflow cs oid db order).db.ingredients
      = db.ingredients.map
          (fun ing => { ing with stock := ing.stock - (demand db order ing.ingredientId : Int) }) := by
  have hd := deplete_sufficient db order hs
  rcases he : (resolveOrder db order).isEmpty with _ | _
  · have ht : (deplete_inventory_from_order db order).1.truthy = true := by rw [hd]; rfl
    have hne : (deplete_inventory_from_order db order).1 ≠ .pystr "not_enough" := by
      rw [hd]
      show PyVal.pystr "ok" ≠ PyVal.pystr "not_enough"
      decide
    unfold runWorkflow
    rw [run_success deplete_inventory_from_order cs oid db order hconn hq he ht hne]
    refine ⟨rfl, rfl, ?_⟩
    rw [hd]
    simp [persistLines, decrementAll]
  · unfold runWorkflow
    rw [run_empty deplete_inventory_from_order cs oid db order hconn hq he]
    rw [List.isEmpty_iff] at he
    exact ⟨rfl, by simp [he], (map_sub_demand_nil db order he).symm⟩

theorem runWorkflow_ingredients_cases (cs : ConnState) (oid : String) (db : DB)
    (order : List OrderItem) :
    (runWorkflow cs oid db order).db.ingredients = db.ingredients ∨
    (sufficientStock db order = true ∧
     (runWorkflow cs oid db order).db.ingredients
       = decrementAll (demand db order) db.ingredients) := by
  unfold runWorkflow
  rcases h1 : cs.isNone with _ | _
  · rcases h2 : cs.mealsQueryFails with _ | _
    · rcases he : (resolveOrder db order).isEmpty with _ | _
      · rcases hs : sufficientStock db order with _ | _
        · have heq : (deplete_inventory_from_order db order).1 = .pystr "not_enough" := by
            rw [deplete_insufficient db order hs]
          rw [run_not_enough deplete_inventory_from_order cs oid db order h1 h2 he heq]
          left
          rw [deplete_insufficient db order hs]
        · have hd := deplete_sufficient db order hs
          have ht : (deplete_inventory_from_order db order).1.truthy = true := by rw [hd]; rfl
          have hne : (deplete_inventory_from_order db order).1 ≠ .pystr "not_enough" := by
            rw [hd]
            show PyVal.pystr "ok" ≠ PyVal.pystr "not_enough"
            decide
          rw [run_success deplete_inventory_from_order cs oid db order h1 h2 he ht hne]
          right
          refine ⟨rfl, ?_⟩
          rw [hd]
          simp [persistLines]
      · rw [run_empty deplete_inventory_from_order cs oid db order h1 h2 he]
        left
        rfl
    · rw [run_meals_fail deplete_inventory_from_order cs oid db order h1 h2]
      left
      rfl
  · rw [run_no_conn deplete_inventory_from_order cs oid db order h1]
    left
    rfl

/-! ### The claims -/

/-- Claim C1: for every order batch in which at least one ingredient's
aggregated demand exceeds its current stock (starting from the model's
stock-nonnegativity invariant), the workflow returns the
insufficient-stock outcome (the string `"not_enough"`), persists zero
OrderLines, and leaves every ingredient's stock exactly as it was
before the call. -/
theorem claim_C1 (cs : ConnState) (oid : String) (db : DB) (order : List OrderItem)
    (hconn : cs.isNone = false) (hq : cs.mealsQueryFails = false)
    (hnn : ∀ ing ∈ db.ingredients, 0 ≤ ing.stock)
    (hins : ∃ ing ∈ db.ingredients, ing.stock < (demand db order ing.ingredientId : Int)) :
    (runWorkflow cs oid db order).retval = some "not_enough" ∧
    (runWorkflow cs oid db order).persisted = 0 ∧
    (runWorkflow cs oid db order).db.orderItems = db.orderItems ∧
    (runWorkflow cs oid db order).db.ingredients = db.ingredients := by
  have hs : sufficientStock db order = false := by
    rcases h : sufficientStock db order with _ | _
    · rfl
    · exfalso
      obtain ⟨ing, hing, hlt⟩ := hins
      exact absurd ((sufficientStock_iff db order).mp h ing hing) hlt.not_le
  have hne := resolveOrder_ne_nil_of_demand_pos db order hnn hins
  have heq : (deplete_inventory_from_order db order).1 = .pystr "not_enough" := by
    rw [deplete_insufficient db order hs]
  unfold runWorkflow
  rw [run_not_enough deplete_inventory_from_order cs oid db order hconn hq hne heq]
  refine ⟨rfl, rfl, ?_, ?_⟩
  · rw [deplete_insufficient db order hs]
  · rw [deplete_insufficient db order hs]

/-- Witness for C1: the specification's second running example, six
pizzas against ten units of cheese (demand 12 > 10). -/
theorem claim_C1_witness :
    (runWorkflow goodConn "o1" sampleDB [⟨"Pizza", 6⟩]).retval = some "not_enough" ∧
    (runWorkflow goodConn "o1" sampleDB [⟨"Pizza", 6⟩]).persisted = 0 ∧
    (runWorkflow goodConn "o1" sampleDB [⟨"Pizza", 6⟩]).db.orderItems = sampleDB.orderItems ∧
    (runWorkflow goodConn "o1" sampleDB [⟨"Pizza", 6⟩]).db.ingredients = sampleDB.ingredients :=
  claim_C1 goodConn "o1" sampleDB [⟨"Pizza", 6⟩] rfl rfl (by decide) (by decide)

/-- Claim C2: for every order batch in which aggregated demand for every
ingredient is at most its current stock, the workflow returns the ok
outcome, the number of OrderLines persisted equals the number of
resolved items, and each ingredient's new stock equals its old stock
minus that ingredient's aggregated demand, exactly. -/
theorem claim_C2 (cs : ConnState) (oid : String) (db : DB) (order : List OrderItem)
    (hconn : cs.isNone = false) (hq : cs.mealsQueryFails = false)
    (hsuff : ∀ ing ∈ db.ingredients, (demand db order ing.ingredientId : Int) ≤ ing.stock) :
    (runWorkflow cs oid db order).retval = some "ok" ∧
    (runWorkflow cs oid db order).persisted = (resolveOrder db order).length ∧
    (runWorkflow cs oid db order).db.ingredients
      = db.ingredients.map
          (fun ing => { ing with stock := ing.stock - (demand db order ing.ingredientId : Int) }) :=
  runWorkflow_ok_of_sufficient cs oid db order hconn hq ((sufficientStock_iff db order).mpr hsuff)

/-- Witness for C2: the specification's first running example, three
pizzas against ten units of cheese (demand 6 ≤ 10, stock becomes 4,
one line persisted). -/
theorem claim_C2_witness :
    (runWorkflow goodConn "o1" sampleDB [⟨"Pizza", 3⟩]).retval = some "ok" ∧
    (runWorkflow goodConn "o1" sampleDB [⟨"Pizza", 3⟩]).persisted
      = (resolveOrder sampleDB [⟨"Pizza", 3⟩]).length ∧
    (runWorkflow goodConn "o1" sampleDB [⟨"Pizza", 3⟩]).db.ingredients
      = sampleDB.ingredients.map
          (fun ing =>
            { ing with
              stock := ing.stock - (demand sampleDB [⟨"Pizza", 3⟩] ing.ingredientId : Int) }) :=
  claim_C2 goodConn "o1" sampleDB [⟨"Pizza", 3⟩] rfl rfl (by decide)

/-- Claim C3: starting from a state in which every ingredient's stock is
nonnegative, every ingredient's stock stays nonnegative at every
observable point of the depletion phase and after the whole workflow,
in every branch. -/
theorem claim_C3 (cs : ConnState) (oid : String) (db : DB) (order : List OrderItem)
    (hnn : ∀ ing ∈ db.ingredients, 0 ≤ ing.stock) :
    (∀ k : Nat, ∀ ing ∈ observableStock db order k, 0 ≤ ing.stock) ∧
    (∀ ing ∈ (runWorkflow cs oid db order).db.ingredients, 0 ≤ ing.stock) := by
  constructor
  · intro k ing hing
    unfold observableStock at hing
    rcases hs : sufficientStock db order with _ | _
    · rw [hs] at hing
      simp only [Bool.false_eq_true, if_false] at hing
      exact hnn ing hing
    · rw [hs] at hing
      simp only [if_pos] at hing
      rw [List.mem_append] at hing
      rcases hing with hing | hing
      · exact decrementAll_nonneg db order (db.ingredients.take k)
          (fun i hi => List.mem_of_mem_take hi) (fun i hi => hnn i (List.mem_of_mem_take hi))
          hs ing hing
      · exact hnn ing (List.mem_of_mem_drop hing)
  · intro ing hing
    rcases runWorkflow_ingredients_cases cs oid db order with h | ⟨hs, h⟩
    · rw [h] at hing
      exact hnn ing hing
    · rw [h] at hing
      exact decrementAll_nonneg db order db.ingredients (fun i hi => hi) hnn hs ing hing

/-- Witness for C3: the running example with three pizzas. -/
theorem claim_C3_witness :
    (∀ k : Nat, ∀ ing ∈ observableStock sampleDB [⟨"Pizza", 3⟩] k, 0 ≤ ing.stock) ∧
    (∀ ing ∈ (runWorkflow goodConn "o1" sampleDB [⟨"Pizza", 3⟩]).db.ingredients, 0 ≤ ing.stock) :=
  claim_C3 goodConn "o1" sampleDB [⟨"Pizza", 3⟩] (by decide)

/-- Claim C4: demand is accumulated into a single per-ingredient total
across the whole batch before any decrement: for a two-line batch
(including the same meal on both lines) every ingredient's aggregated
demand is the sum of the two lines' requirements, and on success its
stock is decremented exactly once, by that combined sum. -/
theorem claim_C4 (cs : ConnState) (oid : String) (db : DB) (l1 l2 : OrderItem) (m1 m2 : Nat)
    (hconn : cs.isNone = false) (hq : cs.mealsQueryFails = false)
    (h1 : lookupMeal db l1.itemName = some m1) (h2 : lookupMeal db l2.itemName = some m2)
    (hsuff : ∀ ing ∈ db.ingredients, (demand db [l1, l2] ing.ingredientId : Int) ≤ ing.stock) :
    (∀ i : Nat, demand db [l1, l2] i
        = l1.quantity * recipeQty db m1 i + l2.quantity * recipeQty db m2 i) ∧
    (runWorkflow cs oid db [l1, l2]).db.ingredients
      = db.ingredients.map
          (fun ing =>
            { ing with
              stock := ing.stock
                - ((l1.quantity * recipeQty db m1 ing.ingredientId
                    + l2.quantity * recipeQty db m2 ing.ingredientId : Nat) : Int) }) := by
  have hres : resolveOrder db [l1, l2] = [(m1, l1.quantity), (m2, l2.quantity)] := by
    simp [resolveOrder, h1, h2]
  have hdem : ∀ i : Nat, demand db [l1, l2] i
      = l1.quantity * recipeQty db m1 i + l2.quantity * recipeQty db m2 i := by
    intro i
    simp [demand, hres]
  refine ⟨hdem, ?_⟩
  obtain ⟨-, -, hing⟩ :=
    runWorkflow_ok_of_sufficient cs oid db [l1, l2] hconn hq
      ((sufficientStock_iff db [l1, l2]).mpr hsuff)
  rw [hing]
  apply List.map_congr_left
  intro ing _
  rw [hdem ing.ingredientId]

/-- Witness for C4: the same meal ordered on two separate lines (two
pizzas and one pizza); cheese is decremented once, by the combined six
units. -/
theorem claim_C4_witness :
    (∀ i : Nat, demand sampleDB [⟨"Pizza", 2⟩, ⟨"Pizza", 1⟩] i
        = 2 * recipeQty sampleDB 1 i + 1 * recipeQty sampleDB 1 i) ∧
    (runWorkflow goodConn "o1" sampleDB [⟨"Pizza", 2⟩, ⟨"Pizza", 1⟩]).db.ingredients
      = sampleDB.ingredients.map
          (fun ing =>
            { ing with
              stock := ing.stock
                - ((2 * recipeQty sampleDB 1 ing.ingredientId
                    + 1 * recipeQty sampleDB 1 ing.ingredientId : Nat) : Int) }) :=
  claim_C4 goodConn "o1" sampleDB ⟨"Pizza", 2⟩ ⟨"Pizza", 1⟩ 1 1 rfl rfl (by decide) (by decide)
    (by decide)

/-- Counterexample to claim C5 as stated: when the connection is absent
(Python `conn is None`) the function executes a bare `return`, so the
caller receives Python `None`, which is none of the three outcome
values. -/
theorem claim_C5_counterexample :
    (runWorkflow ⟨true, false⟩ "o1" sampleDB [⟨"Pizza", 1⟩]).retval = none ∧
    (runWorkflow ⟨true, false⟩ "o1" sampleDB [⟨"Pizza", 1⟩]).retval ≠ some "ok" ∧
    (runWorkflow ⟨true, false⟩ "o1" sampleDB [⟨"Pizza", 1⟩]).retval ≠ some "not_enough" ∧
    (runWorkflow ⟨true, false⟩ "o1" sampleDB [⟨"Pizza", 1⟩]).retval ≠ some "notok-err" := by
  decide

/-- Claim C5 as amended: when a connection is present and the catalog
query succeeds, the return value is one of the three outcomes
`"ok"`, `"not_enough"`, `"notok-err"`, whatever the depletion engine
returns; when the connection is absent or the catalog query fails, the
function returns Python `None` instead. -/
theorem claim_C5 (f : DB → List OrderItem → PyVal × DB) (cs : ConnState) (oid : String)
    (db : DB) (order : List OrderItem)
    (hconn : cs.isNone = false) (hq : cs.mealsQueryFails = false) :
    (insert_orders_from_bot f cs oid db order).retval = some "ok" ∨
    (insert_orders_from_bot f cs oid db order).retval = some "not_enough" ∨
    (insert_orders_from_bot f cs oid db order).retval = some "notok-err" := by
  rcases he : (resolveOrder db order).isEmpty with _ | _
  · rcases hf : (f db order).1.truthy with _ | _
    · right
      right
      rw [run_falsy f cs oid db order hconn hq he hf]
    · by_cases heq : (f db order).1 = .pystr "not_enough"
      · right
        left
        rw [run_not_enough f cs oid db order hconn hq he heq]
      · left
        rw [run_success f cs oid db order hconn hq he hf heq]
  · left
    rw [run_empty f cs oid db order hconn hq he]

/-- Witness for the amended C5. -/
theorem claim_C5_witness :
    (insert_orders_from_bot deplete_inventory_from_order goodConn "o1" sampleDB
        [⟨"Pizza", 1⟩]).retval = some "ok" ∨
    (insert_orders_from_bot deplete_inventory_from_order goodConn "o1" sampleDB
        [⟨"Pizza", 1⟩]).retval = some "not_enough" ∨
    (insert_orders_from_bot deplete_inventory_from_order goodConn "o1" sampleDB
        [⟨"Pizza", 1⟩]).retval = some "notok-err" :=
  claim_C5 deplete_inventory_from_order goodConn "o1" sampleDB [⟨"Pizza", 1⟩] rfl rfl

/-- Counterexample to claim C6 as stated: an empty batch does skip
depletion, but the returned value is `"ok"` — the very same value as
the success outcome of the depletion path, not a distinct neutral
outcome. -/
theorem claim_C6_counterexample :
    (runWorkflow goodConn "o1" sampleDB []).retval = some "ok" ∧
    classifyRet (runWorkflow goodConn "o1" sampleDB []).retval = some Outcome.ok := by
  decide

/-- Claim C6 as amended: for every batch whose resolved-items list is
empty, the workflow skips depletion entirely (the engine is never
invoked), performs zero recipe queries and zero ledger reads beyond the
catalog lookup, persists zero OrderLines, commits nothing and leaves
the store untouched — but its return value is the string `"ok"`, the
same value as the success outcome (only a printed message
distinguishes the two). -/
theorem claim_C6 (cs : ConnState) (oid : String) (db : DB) (order : List OrderItem)
    (hconn : cs.isNone = false) (hq : cs.mealsQueryFails = false)
    (hempty : resolveOrder db order = []) :
    (runWorkflow cs oid db order).retval = some "ok" ∧
    (runWorkflow cs oid db order).persisted = 0 ∧
    (runWorkflow cs oid db order).commits = 0 ∧
    (runWorkflow cs oid db order).depleteCalls = 0 ∧
    (runWorkflow cs oid db order).recipeQueries = 0 ∧
    (runWorkflow cs oid db order).ledgerReads = 0 ∧
    (runWorkflow cs oid db order).db = db := by
  have he : (resolveOrder db order).isEmpty = true := by
    rw [hempty]
    rfl
  unfold runWorkflow
  rw [run_empty deplete_inventory_from_order cs oid db order hconn hq he]
  exact ⟨rfl, rfl, rfl, rfl, rfl, rfl, rfl⟩

/-- Witness for the amended C6: a batch whose only item name is not in
the catalog. -/
theorem claim_C6_witness :
    (runWorkflow goodConn "o1" sampleDB [⟨"Burger", 1⟩]).retval = some "ok" ∧
    (runWorkflow goodConn "o1" sampleDB [⟨"Burger", 1⟩]).persisted = 0 ∧
    (runWorkflow goodConn "o1" sampleDB [⟨"Burger", 1⟩]).commits = 0 ∧
    (runWorkflow goodConn "o1" sampleDB [⟨"Burger", 1⟩]).depleteCalls = 0 ∧
    (runWorkflow goodConn "o1" sampleDB [⟨"Burger", 1⟩]).recipeQueries = 0 ∧
    (runWorkflow goodConn "o1" sampleDB [⟨"Burger", 1⟩]).ledgerReads = 0 ∧
    (runWorkflow goodConn "o1" sampleDB [⟨"Burger", 1⟩]).db = sampleDB :=
  claim_C6 goodConn "o1" sampleDB [⟨"Burger", 1⟩] rfl rfl (by decide)

/-- Claim C7: for every possible engine result, the recorder commits
exactly once, strictly after depletion (the persisted lines are
appended to the engine's output state), in the success case only; on
the insufficient-stock and hard-error outcomes nothing is persisted and
the outcome classification reaches the caller unchanged — in the
insufficient case even the very string produced by the engine. -/
theorem claim_C7 (f : DB → List OrderItem → PyVal × DB) (cs : ConnState) (oid : String)
    (db : DB) (order : List OrderItem) (r : PyVal) (db1 : DB)
    (hconn : cs.isNone = false) (hq : cs.mealsQueryFails = false)
    (hne : (resolveOrder db order).isEmpty = false) (heng : f db order = (r, db1)) :
    classifyRet (insert_orders_from_bot f cs oid db order).retval = some (classifyEngine r) ∧
    (insert_orders_from_bot f cs oid db order).commits
      = (if classifyEngine r = Outcome.ok then 1 else 0) ∧
    (insert_orders_from_bot f cs oid db order).persisted
      = (if classifyEngine r = Outcome.ok then (resolveOrder db order).length else 0) ∧
    (insert_orders_from_bot f cs oid db order).db.orderItems
      = db1.orderItems
        ++ (if classifyEngine r = Outcome.ok
            then (resolveOrder db order).map (fun p => OrderLine.mk oid p.1 p.2) else []) ∧
    (classifyEngine r = Outcome.insufficientStock →
      (insert_orders_from_bot f cs oid db order).retval = some "not_enough" ∧
      r = PyVal.pystr "not_enough") := by
  rcases hrt : r.truthy with _ | _
  · have hcl : classifyEngine r = Outcome.hardError := by
      simp [classifyEngine, hrt]
    have hf : (f db order).1.truthy = false := by
      rw [heng]
      exact hrt
    rw [run_falsy f cs oid db order hconn hq hne hf, hcl]
    refine ⟨rfl, rfl, rfl, ?_, ?_⟩
    · rw [heng]
      simp
    · intro habs
      cases habs
  · by_cases heq : r = PyVal.pystr "not_enough"
    · have hcl : classifyEngine r = Outcome.insufficientStock := by
        rw [heq]
        decide
      have hfq : (f db order).1 = .pystr "not_enough" := by
        rw [heng]
        exact heq
      rw [run_not_enough f cs oid db order hconn hq hne hfq, hcl]
      refine ⟨rfl, rfl, rfl, ?_, fun _ => ⟨rfl, heq⟩⟩
      rw [heng]
      simp
    · have hcl : classifyEngine r = Outcome.ok := by
        simp [classifyEngine, hrt, heq]
      have hft : (f db order).1.truthy = true := by
        rw [heng]
        exact hrt
      have hfq : (f db order).1 ≠ .pystr "not_enough" := by
        rw [heng]
        exact heq
      rw [run_success f cs oid db order hconn hq hne hft hfq, hcl]
      refine ⟨rfl, rfl, rfl, ?_, ?_⟩
      · rw [heng]
        simp [persistLines]
      · intro habs
        cases habs

/-- Witness for C7, with the spec-modelled engine on a sufficient
batch (classification: success). -/
theorem claim_C7_witness :
    classifyRet (insert_orders_from_bot deplete_inventory_from_order goodConn "o1" sampleDB
        [⟨"Pizza", 1⟩]).retval = some (classifyEngine (PyVal.pystr "ok")) ∧
    (insert_orders_from_bot deplete_inventory_from_order goodConn "o1" sampleDB
        [⟨"Pizza", 1⟩]).commits
      = (if classifyEngine (PyVal.pystr "ok") = Outcome.ok then 1 else 0) ∧
    (insert_orders_from_bot deplete_inventory_from_order goodConn "o1" sampleDB
        [⟨"Pizza", 1⟩]).persisted
      = (if classifyEngine (PyVal.pystr "ok") = Outcome.ok
         then (resolveOrder sampleDB [⟨"Pizza", 1⟩]).length else 0) ∧
    (insert_orders_from_bot deplete_inventory_from_order goodConn "o1" sampleDB
        [⟨"Pizza", 1⟩]).db.orderItems
      = (deplete_inventory_from_order sampleDB [⟨"Pizza", 1⟩]).2.orderItems
        ++ (if classifyEngine (PyVal.pystr "ok") = Outcome.ok
            then (resolveOrder sampleDB [⟨"Pizza", 1⟩]).map (fun p => OrderLine.mk "o1" p.1 p.2)
            else []) ∧
    (classifyEngine (PyVal.pystr "ok") = Outcome.insufficientStock →
      (insert_orders_from_bot deplete_inventory_from_order goodConn "o1" sampleDB
          [⟨"Pizza", 1⟩]).retval = some "not_enough" ∧
      PyVal.pystr "ok" = PyVal.pystr "not_enough") :=
  claim_C7 deplete_inventory_from_order goodConn "o1" sampleDB [⟨"Pizza", 1⟩]
    (PyVal.pystr "ok") (deplete_inventory_from_order sampleDB [⟨"Pizza", 1⟩]).2
    rfl rfl (by decide) (by decide)

theorem runWorkflow_skipped_good (cs : ConnState) (oid : String) (db : DB)
    (order : List OrderItem) (hconn : cs.isNone = false) (hq : cs.mealsQueryFails = false) :
    (runWorkflow cs oid db order).skipped = skippedNames db order := by
  unfold runWorkflow
  rcases he : (resolveOrder db order).isEmpty with _ | _
  · rcases hf : (deplete_inventory_from_order db order).1.truthy with _ | _
    · rw [run_falsy deplete_inventory_from_order cs oid db order hconn hq he hf]
    · by_cases heq : (deplete_inventory_from_order db order).1 = .pystr "not_enough"
      · rw [run_not_enough deplete_inventory_from_order cs oid db order hconn hq he heq]
      · rw [run_success deplete_inventory_from_order cs oid db order hconn hq he hf heq]
  · rw [run_empty deplete_inventory_from_order cs oid db order hconn hq he]

theorem runWorkflow_recipeQueries_good (cs : ConnState) (oid : String) (db : DB)
    (order : List OrderItem) (hconn : cs.isNone = false) (hq : cs.mealsQueryFails = false)
    (hne : (resolveOrder db order).isEmpty = false) :
    (runWorkflow cs oid db order).recipeQueries = (gatherIngredients db order).2 := by
  unfold runWorkflow
  rcases hf : (deplete_inventory_from_order db order).1.truthy with _ | _
  · rw [run_falsy deplete_inventory_from_order cs oid db order hconn hq hne hf]
  · by_cases heq : (deplete_inventory_from_order db order).1 = .pystr "not_enough"
    · rw [run_not_enough deplete_inventory_from_order cs oid db order hconn hq hne heq]
    · rw [run_success deplete_inventory_from_order cs oid db order hconn hq hne hf heq]

theorem runWorkflow_orderItems_of_sufficient (cs : ConnState) (oid : String) (db : DB)
    (order : List OrderItem) (hconn : cs.isNone = false) (hq : cs.mealsQueryFails = false)
    (hs : sufficientStock db order = true) (hne : (resolveOrder db order).isEmpty = false) :
    (runWorkflow cs oid db order).db.orderItems
      = db.orderItems ++ (resolveOrder db order).map (fun p => OrderLine.mk oid p.1 p.2) := by
  have hd := deplete_sufficient db order hs
  have ht : (deplete_inventory_from_order db order).1.truthy = true := by
    rw [hd]
    rfl
  have hneq : (deplete_inventory_from_order db order).1 ≠ .pystr "not_enough" := by
    rw [hd]
    show PyVal.pystr "ok" ≠ PyVal.pystr "not_enough"
    decide
  unfold runWorkflow
  rw [run_success deplete_inventory_from_order cs oid db order hconn hq hne ht hneq]
  rw [hd]
  simp [persistLines]

/-- Claim C8: catalog resolution is exact case-insensitive string
equality on the name.  An item with no case-insensitive catalog match
is dropped and its name is individually reported in the warning list;
an item whose lowercased name matches a catalog meal resolves to that
meal's identifier, is not warned about, contributes its resolved line,
and on a sufficient batch its OrderLine is persisted. -/
theorem claim_C8 (cs : ConnState) (oid : String) (db : DB) (order : List OrderItem)
    (hconn : cs.isNone = false) (hq : cs.mealsQueryFails = false) :
    (∀ it ∈ order, (∀ m ∈ db.meals, pyLower m.name ≠ pyLower it.itemName) →
        it.itemName ∈ (runWorkflow cs oid db order).skipped) ∧
    (∀ it ∈ order, ∀ m0 ∈ db.meals, pyLower m0.name = pyLower it.itemName →
        it.itemName ∉ (runWorkflow cs oid db order).skipped ∧
        ∃ mid : Nat, lookupMeal db it.itemName = some mid ∧
          (∃ m ∈ db.meals, m.mealId = mid ∧ pyLower m.name = pyLower it.itemName) ∧
          (mid, it.quantity) ∈ resolveOrder db order ∧
          (sufficientStock db order = true →
            OrderLine.mk oid mid it.quantity ∈ (runWorkflow cs oid db order).db.orderItems)) := by
  rw [runWorkflow_skipped_good cs oid db order hconn hq]
  constructor
  · intro it hit hmiss
    exact mem_skippedNames_of_lookup_none db order it hit (lookupMeal_eq_none db it.itemName hmiss)
  · intro it hit m0 hm0 hm0eq
    have hsome : (lookupMeal db it.itemName).isSome = true :=
      (lookupMeal_isSome_iff db it.itemName).mpr ⟨m0, hm0, hm0eq⟩
    obtain ⟨mid, hmid⟩ := Option.isSome_iff_exists.mp hsome
    constructor
    · intro habs
      rw [lookup_none_of_mem_skippedNames db order it.itemName habs] at hmid
      cases hmid
    · refine ⟨mid, hmid, lookupMeal_eq_some db it.itemName mid hmid, ?_, ?_⟩
      · exact mem_resolveOrder_of_lookup db order it hit mid hmid
      · intro hs
        have hmem := mem_resolveOrder_of_lookup db order it hit mid hmid
        have hne : (resolveOrder db order).isEmpty = false := by
          rcases he : (resolveOrder db order).isEmpty with _ | _
          · rfl
          · rw [List.isEmpty_iff] at he
            rw [he] at hmem
            cases hmem
        rw [runWorkflow_orderItems_of_sufficient cs oid db order hconn hq hs hne]
        rw [List.mem_append]
        right
        rw [List.mem_map]
        exact ⟨(mid, it.quantity), hmem, rfl⟩

/-- Witness for C8: one resolvable item (case differs from the catalog
entry) and one unresolvable item. -/
theorem claim_C8_witness :
    (∀ it ∈ [OrderItem.mk "PIZZA" 2, OrderItem.mk "Burger" 1],
      (∀ m ∈ sampleDB.meals, pyLower m.name ≠ pyLower it.itemName) →
        it.itemName ∈ (runWorkflow goodConn "o1" sampleDB
          [OrderItem.mk "PIZZA" 2, OrderItem.mk "Burger" 1]).skipped) ∧
    (∀ it ∈ [OrderItem.mk "PIZZA" 2, OrderItem.mk "Burger" 1],
      ∀ m0 ∈ sampleDB.meals, pyLower m0.name = pyLower it.itemName →
        it.itemName ∉ (runWorkflow goodConn "o1" sampleDB
          [OrderItem.mk "PIZZA" 2, OrderItem.mk "Burger" 1]).skipped ∧
        ∃ mid : Nat, lookupMeal sampleDB it.itemName = some mid ∧
          (∃ m ∈ sampleDB.meals, m.mealId = mid ∧ pyLower m.name = pyLower it.itemName) ∧
          (mid, it.quantity) ∈ resolveOrder sampleDB
            [OrderItem.mk "PIZZA" 2, OrderItem.mk "Burger" 1] ∧
          (sufficientStock sampleDB [OrderItem.mk "PIZZA" 2, OrderItem.mk "Burger" 1] = true →
            OrderLine.mk "o1" mid it.quantity ∈ (runWorkflow goodConn "o1" sampleDB
              [OrderItem.mk "PIZZA" 2, OrderItem.mk "Burger" 1]).db.orderItems)) :=
  claim_C8 goodConn "o1" sampleDB [OrderItem.mk "PIZZA" 2, OrderItem.mk "Burger" 1] rfl rfl

/-- Counterexample to claim C9 as stated: a batch with the single
distinct meal Pizza on two order lines issues two recipe queries, not
one. -/
theorem claim_C9_counterexample :
    (runWorkflow goodConn "o1" sampleDB [⟨"Pizza", 1⟩, ⟨"Pizza", 2⟩]).recipeQueries = 2 ∧
    (resolveOrder sampleDB [⟨"Pizza", 1⟩, ⟨"Pizza", 2⟩]).map Prod.fst = [1, 1] := by
  decide

/-- Claim C9 as amended: the pre-depletion recipe lookup runs once per
order line whose name resolves to a truthy meal id — so a meal ordered
on several lines is queried once per such line, not once per distinct
meal (the query results are only deduplicated afterwards, in the
gathered ingredient set). -/
theorem claim_C9 (cs : ConnState) (oid : String) (db : DB) (order : List OrderItem)
    (hconn : cs.isNone = false) (hq : cs.mealsQueryFails = false)
    (hne : (resolveOrder db order).isEmpty = false) :
    (runWorkflow cs oid db order).recipeQueries = (order.filter (truthyMeal db)).length := by
  rw [runWorkflow_recipeQueries_good cs oid db order hconn hq hne]
  exact gather_count db order

/-- Witness for the amended C9: the duplicate-meal batch again; both
lines resolve, so two queries run. -/
theorem claim_C9_witness :
    (runWorkflow goodConn "o1" sampleDB [⟨"Pizza", 1⟩, ⟨"Pizza", 2⟩]).recipeQueries
      = (List.filter (truthyMeal sampleDB) [⟨"Pizza", 1⟩, ⟨"Pizza", 2⟩]).length :=
  claim_C9 goodConn "o1" sampleDB [⟨"Pizza", 1⟩, ⟨"Pizza", 2⟩] rfl rfl (by decide)

/-- Claim C10: the recorder's success gate is a truthiness and
inequality test.  For every falsy engine result it returns
`"notok-err"` and persists nothing; for every truthy engine result
other than the exact string `"not_enough"` — whatever that value is —
it persists all resolved order lines, commits once and returns
`"ok"`. -/
theorem claim_C10 (f : DB → List OrderItem → PyVal × DB) (cs : ConnState) (oid : String)
    (db : DB) (order : List OrderItem) (r : PyVal) (db1 : DB)
    (hconn : cs.isNone = false) (hq : cs.mealsQueryFails = false)
    (hne : (resolveOrder db order).isEmpty = false) (heng : f db order = (r, db1)) :
    (r.truthy = false →
      (insert_orders_from_bot f cs oid db order).retval = some "notok-err" ∧
      (insert_orders_from_bot f cs oid db order).persisted = 0 ∧
      (insert_orders_from_bot f cs oid db order).commits = 0 ∧
      (insert_orders_from_bot f cs oid db order).db.orderItems = db1.orderItems) ∧
    (r.truthy = true → r ≠ PyVal.pystr "not_enough" →
      (insert_orders_from_bot f cs oid db order).retval = some "ok" ∧
      (insert_orders_from_bot f cs oid db order).persisted = (resolveOrder db order).length ∧
      (insert_orders_from_bot f cs oid db order).commits = 1) := by
  constructor
  · intro hrf
    have hf : (f db order).1.truthy = false := by
      rw [heng]
      exact hrf
    rw [run_falsy f cs oid db order hconn hq hne hf]
    refine ⟨rfl, rfl, rfl, ?_⟩
    rw [heng]
  · intro hrt hneq
    have hft : (f db order).1.truthy = true := by
      rw [heng]
      exact hrt
    have hfq : (f db order).1 ≠ .pystr "not_enough" := by
      rw [heng]
      exact hneq
    rw [run_success f cs oid db order hconn hq hne hft hfq]
    exact ⟨rfl, rfl, rfl⟩

/-- Witness for C10: an engine returning the arbitrary truthy non-ok
value `7` still drives the recorder to persist and report `"ok"`. -/
theorem claim_C10_witness :
    ((PyVal.pyint 7).truthy = false →
      (insert_orders_from_bot (fun d _ => (PyVal.pyint 7, d)) goodConn "o1" sampleDB
          [⟨"Pizza", 1⟩]).retval = some "notok-err" ∧
      (insert_orders_from_bot (fun d _ => (PyVal.pyint 7, d)) goodConn "o1" sampleDB
          [⟨"Pizza", 1⟩]).persisted = 0 ∧
      (insert_orders_from_bot (fun d _ => (PyVal.pyint 7, d)) goodConn "o1" sampleDB
          [⟨"Pizza", 1⟩]).commits = 0 ∧
      (insert_orders_from_bot (fun d _ => (PyVal.pyint 7, d)) goodConn "o1" sampleDB
          [⟨"Pizza", 1⟩]).db.orderItems = sampleDB.orderItems) ∧
    ((PyVal.pyint 7).truthy = true → PyVal.pyint 7 ≠ PyVal.pystr "not_enough" →
      (insert_orders_from_bot (fun d _ => (PyVal.pyint 7, d)) goodConn "o1" sampleDB
          [⟨"Pizza", 1⟩]).retval = some "ok" ∧
      (insert_orders_from_bot (fun d _ => (PyVal.pyint 7, d)) goodConn "o1" sampleDB
          [⟨"Pizza", 1⟩]).persisted = (resolveOrder sampleDB [⟨"Pizza", 1⟩]).length ∧
      (insert_orders_from_bot (fun d _ => (PyVal.pyint 7, d)) goodConn "o1" sampleDB
          [⟨"Pizza", 1⟩]).commits = 1) :=
  claim_C10 (fun d _ => (PyVal.pyint 7, d)) goodConn "o1" sampleDB [⟨"Pizza", 1⟩]
    (PyVal.pyint 7) sampleDB rfl rfl (by decide) rfl

example : (runWorkflow goodConn "o1" sampleDB [⟨"Pizza", 3⟩]).db.ingredients
    = [⟨101, "Cheese", "g", 4⟩] := by decide

example : (runWorkflow goodConn "o1" sampleDB [⟨"Pizza", 6⟩]).retval = some "not_enough" := by
  decide

example : (runWorkflow goodConn "o1" sampleDB []).retval = some "ok" := by decide

example : (runWorkflow ⟨true, false⟩ "o1" sampleDB [⟨"Pizza", 1⟩]).retval = none := by decide

example : (runWorkflow goodConn "o1" sampleDB [⟨"Pizza", 1⟩, ⟨"Pizza", 2⟩]).recipeQueries = 2 := by
  decide
